import Mathlib

/-!
Verification of the tile encoding and scene-graph assembly core of the
fbx2tiles converter (src/fbx2tiles.py).  The Python functions are embedded
shallowly: parsed JSON documents become the inductive `JVal`, byte strings
become `List Nat` (one entry per byte; all serialized JSON is ASCII because
the serializer escapes every non-ASCII character), and the buffer resolved
by `find_binary_data` is passed in as an explicit `Option (List Nat) × Bool`
pair (bytes-or-none, is_embedded), matching the pair that function returns.
-/

/-- A JSON value as held by Python's `json` module after `json.load`:
objects keep their key insertion order (Python dicts are ordered), numbers
occurring in the claims are integers. -/
inductive JVal where
  | jnull
  | jbool (b : Bool)
  | jnum (n : Int)
  | jstr (s : String)
  | jarr (elems : List JVal)
  | jobj (fields : List (String × JVal))
deriving Repr

/-- Lowercase hexadecimal digit, as used by Python's `\uXXXX` escapes. -/
def hexDigit (n : Nat) : Char :=
  if n < 10 then Char.ofNat (48 + n) else Char.ofNat (87 + n)

/-- A single `\uXXXX` escape for a code point below 0x10000. -/
def uEscape (n : Nat) : String :=
  String.mk ['\\', 'u', hexDigit (n / 4096 % 16), hexDigit (n / 256 % 16),
             hexDigit (n / 16 % 16), hexDigit (n % 16)]

/-- Python `json.dumps` default (ensure_ascii) escaping of one character:
backslash, quote, the short control escapes, `\uXXXX` for other control
characters and for everything above 0x7E (surrogate pairs beyond 0xFFFF). -/
def escapeChar (c : Char) : String :=
  if c = '\\' then "\\\\"
  else if c = '"' then "\\\""
  else if c = '\n' then "\\n"
  else if c = '\t' then "\\t"
  else if c = '\r' then "\\r"
  else if c.toNat = 8 then "\\b"
  else if c.toNat = 12 then "\\f"
  else if c.toNat < 32 || 126 < c.toNat then
    if c.toNat < 65536 then uEscape c.toNat
    else uEscape (55296 + (c.toNat - 65536) / 1024) ++ uEscape (56320 + (c.toNat - 65536) % 1024)
  else String.singleton c

/-- Serialization of a JSON string literal, Python style. -/
def dumpsStr (s : String) : String :=
  "\"" ++ String.join (s.data.map escapeChar) ++ "\""

mutual

/-- Python `json.dumps` with default arguments: item separator `", "`,
key separator `": "`, insertion order preserved, ASCII output. -/
def dumps : JVal → String
  | .jnull => "null"
  | .jbool true => "true"
  | .jbool false => "false"
  | .jnum n => toString n
  | .jstr s => dumpsStr s
  | .jarr xs => "[" ++ dumpsArr xs ++ "]"
  | .jobj fs => "\x7b" ++ dumpsObj fs ++ "\x7d"

/-- Array elements joined by `", "`. -/
def dumpsArr : List JVal → String
  | [] => ""
  | [x] => dumps x
  | x :: y :: xs => dumps x ++ ", " ++ dumpsArr (y :: xs)

/-- Object fields joined by `", "`, each rendered `key: value`. -/
def dumpsObj : List (String × JVal) → String
  | [] => ""
  | [(k, v)] => dumpsStr k ++ ": " ++ dumps v
  | (k, v) :: f :: fs => dumpsStr k ++ ": " ++ dumps v ++ ", " ++ dumpsObj (f :: fs)

end

/-- UTF-8 bytes of an ASCII string (`str.encode('utf-8')`); every string the
packager serializes is ASCII, where code points and bytes coincide. -/
def strBytes (s : String) : List Nat := s.data.map Char.toNat

/-- Right-pad with spaces to a 4-byte boundary, as in
`s += ' ' * ((4 - len(s) % 4) % 4)`. -/
def pad4 (s : String) : String :=
  s ++ String.mk (List.replicate ((4 - s.length % 4) % 4) ' ')

/-- Little-endian 4-byte encoding of an unsigned 32-bit value
(`struct.pack('<I', n)`). -/
def le32 (n : Nat) : List Nat :=
  [n % 256, n / 256 % 256, n / 65536 % 256, n / 16777216 % 256]

/-- Decode a 4-byte little-endian field. -/
def fromLE32 : List Nat → Nat
  | [a, b, c, d] => a + 256 * b + 65536 * c + 16777216 * d
  | _ => 0

/-- First value bound to a key in a parsed JSON object (Python `d[k]` /
`k in d`; parsed JSON objects have unique keys). -/
def lookupKey : List (String × JVal) → String → Option JVal
  | [], _ => none
  | (k', v) :: rest, k => if k' = k then some v else lookupKey rest k

/-- Python `d[k] = v` on an ordered dict: replace in place when the key is
present, append at the end otherwise. -/
def setKey : List (String × JVal) → String → JVal → List (String × JVal)
  | [], k, v => [(k, v)]
  | (k', v') :: rest, k, v =>
      if k' = k then (k, v) :: rest else (k', v') :: setKey rest k v

/-- Truthiness of `binary_data and not is_embedded` in `create_b3dm`:
the buffer bytes must be present and non-empty (Python `b''` is falsy)
and the embedded flag must be off. -/
def extPresent (bin : Option (List Nat)) (emb : Bool) : Bool :=
  (match bin with
   | some b => !b.isEmpty
   | none => false) && !emb

/-- The buffer URI written by `create_b3dm`, `f"buffer_lod{lod_level}.bin"`. -/
def bufferUri (lod : Nat) : String := "buffer_lod" ++ toString lod ++ ".bin"

/-- The in-place update `gltf_json['buffers'][0]['uri'] = f"buffer_lod{l}.bin"`
guarded by `'buffers' in gltf_json and len(gltf_json['buffers']) > 0`
(only ever reached when an external buffer is present).  Shapes on which the
Python statement would raise (a `buffers` value `len` rejects, or a non-empty
`buffers` whose first element is not an object) map to `none`. -/
def rewriteBuffers (doc : List (String × JVal)) (lod : Nat) :
    Option (List (String × JVal)) :=
  match lookupKey doc "buffers" with
  | none => some doc
  | some (.jarr []) => some doc
  | some (.jarr (.jobj bf :: rest)) =>
      some (setKey doc "buffers"
        (.jarr (.jobj (setKey bf "uri" (.jstr (bufferUri lod))) :: rest)))
  | some (.jarr (_ :: _)) => none
  | some (.jstr s) => if s.length = 0 then some doc else none
  | some (.jobj fs) => if fs.isEmpty then some doc else none
  | some _ => none

/-- The document `create_b3dm` actually serializes: rewritten only when an
external buffer is present. -/
def effDoc (doc : List (String × JVal)) (bin : Option (List Nat)) (emb : Bool)
    (lod : Nat) : Option (List (String × JVal)) :=
  if extPresent bin emb then rewriteBuffers doc lod else some doc

/-- Feature table bytes: `json.dumps({"BATCH_LENGTH": 0})` space-padded to a
4-byte boundary, then encoded. -/
def ftBytes : List Nat :=
  strBytes (pad4 (dumps (.jobj [("BATCH_LENGTH", .jnum 0)])))

/-- Batch table bytes: `json.dumps({})` space-padded to a 4-byte boundary,
then encoded. -/
def btBytes : List Nat :=
  strBytes (pad4 (dumps (.jobj [])))

/-- GLB assembly in `create_b3dm`: 12-byte header (magic `glTF`, version 2,
total length `len(gltf_bytes) + len(binary_data) + 28`), JSON chunk header
(length, tag 0x4E4F534A) and bytes, BIN chunk header (length, tag 0x004E4942)
and bytes — no padding anywhere. -/
def glbWrap (g b : List Nat) : List Nat :=
  strBytes "glTF" ++ le32 2 ++ le32 (g.length + b.length + 28) ++
    le32 g.length ++ le32 0x4E4F534A ++ g ++
    le32 b.length ++ le32 0x004E4942 ++ b

/-- The `glb_data` variable of `create_b3dm`: GLB wrapper when an external
buffer is present, the bare serialized document otherwise. -/
def payloadBytes (d : List (String × JVal)) (bin : Option (List Nat))
    (emb : Bool) : List Nat :=
  let g := strBytes (dumps (.jobj d))
  if extPresent bin emb then glbWrap g (bin.getD []) else g

/-- The 28-byte B3DM header built by `struct.pack('<4sIIIIII', ...)`. -/
def b3dmHeader (ftJ ftB btJ btB payload : Nat) : List Nat :=
  strBytes "b3dm" ++ le32 1 ++ le32 (28 + ftJ + ftB + btJ + btB + payload) ++
    le32 ftJ ++ le32 ftB ++ le32 btJ ++ le32 btB

/-- The bytes `create_b3dm` concatenates once the serialized document is
fixed (both binary tables are `b''` and vanish from the concatenation). -/
def b3dmBody (d : List (String × JVal)) (bin : Option (List Nat))
    (emb : Bool) : List Nat :=
  b3dmHeader ftBytes.length 0 btBytes.length 0 (payloadBytes d bin emb).length ++
    ftBytes ++ btBytes ++ payloadBytes d bin emb

/-- `FBX2Tiles.create_b3dm` on an already-loaded document and resolved
buffer: returns the full B3DM byte buffer, `none` on the document shapes
where the Python would raise while rewriting the buffer URI. -/
def create_b3dm (doc : List (String × JVal)) (bin : Option (List Nat))
    (emb : Bool) (lod : Nat) : Option (List Nat) :=
  (effDoc doc bin emb lod).map (fun d => b3dmBody d bin emb)

/-- Degrees to radians, `math.radians`. -/
noncomputable def radians (d : ℝ) : ℝ := d * Real.pi / 180

/-- `FBX2Tiles.wgs84_to_ecef`: WGS84 geodetic to Earth-Centered-Earth-Fixed,
with a = 6378137.0, f = 1/298.257223563, e² = 2f − f²,
N = a / sqrt(1 − e²·sin²(lat)). -/
noncomputable def wgs84_to_ecef (lon lat h : ℝ) : ℝ × ℝ × ℝ :=
  let a : ℝ := 6378137.0
  let f : ℝ := 1 / 298.257223563
  let e2 : ℝ := 2 * f - f * f
  let lonr := radians lon
  let latr := radians lat
  let n := a / Real.sqrt (1 - e2 * Real.sin latr * Real.sin latr)
  ((n + h) * Real.cos latr * Real.cos lonr,
   (n + h) * Real.cos latr * Real.sin lonr,
   (n * (1 - e2) + h) * Real.sin latr)

/-- `FBX2Tiles.get_transform_matrix`: the 16-number flat array the code
builds, literally in the order the Python list literal writes it. -/
noncomputable def get_transform_matrix (lon lat h : ℝ) : List ℝ :=
  let e := wgs84_to_ecef lon lat h
  let lonr := radians lon
  let latr := radians lat
  let east_x := -Real.sin lonr
  let east_y := Real.cos lonr
  let east_z := (0 : ℝ)
  let north_x := -Real.sin latr * Real.cos lonr
  let north_y := -Real.sin latr * Real.sin lonr
  let north_z := Real.cos latr
  let up_x := Real.cos latr * Real.cos lonr
  let up_y := Real.cos latr * Real.sin lonr
  let up_z := Real.sin latr
  [east_x, north_x, up_x, 0,
   east_y, north_y, up_y, 0,
   east_z, north_z, up_z, 0,
   e.1, e.2.1, e.2.2, 1]

/-- `FBX2Tiles.calculate_bounding_volume`: fixed box, input transform
ignored; the 12 numbers of the `box` array. -/
def calculate_bounding_volume (_transform : List ℝ) : List ℚ :=
  [0, 0, 0, 50, 0, 0, 0, 50, 0, 0, 0, 50]

/-- One element of the `lod_models` list: only its `level` field feeds the
tileset builder. -/
structure LodModel where
  level : Nat
deriving Repr

/-- The canonical `lod_models` list `create_lod_models` produces: levels
`0..N-1` in order. -/
def lodModels (n : Nat) : List LodModel := (List.range n).map LodModel.mk

/-- A node of the produced tileset tree: the dict
`transform?/boundingVolume/geometricError/refine/content?/children` (keys
absent in the Python dict are `none` / `[]`). -/
inductive TileNode where
  | node (transform : Option (List ℝ)) (boundingVolume : List ℚ)
      (geometricError : ℚ) (refinePolicy : String)
      (content : Option String) (children : List TileNode)

/-- Geometric error of a node. -/
def TileNode.geometricError : TileNode → ℚ
  | .node _ _ g _ _ _ => g

/-- Content URI of a node. -/
def TileNode.content : TileNode → Option String
  | .node _ _ _ _ c _ => c

/-- Children of a node. -/
def TileNode.children : TileNode → List TileNode
  | .node _ _ _ _ _ ch => ch

/-- Refinement policy string of a node. -/
def TileNode.refinePolicy : TileNode → String
  | .node _ _ _ r _ _ => r

/-- The chain of nodes obtained by repeatedly taking the first child,
starting at (and including) the given node. -/
def TileNode.chain : TileNode → List TileNode
  | .node tf bv g r c [] => [.node tf bv g r c []]
  | .node tf bv g r c (child :: rest) =>
      .node tf bv g r c (child :: rest) :: child.chain

/-- The tileset document: asset block, document-level geometric error,
root node. -/
structure Tileset where
  version : String
  tilesetVersion : String
  gltfUpAxis : String
  geometricError : ℚ
  root : TileNode

/-- Tile content URI `f"tiles/model_lod{level}.b3dm"`. -/
def tileUri (level : Nat) : String := "tiles/model_lod" ++ toString level ++ ".b3dm"

/-- The tile dict built in one iteration of the loop of
`create_tileset_json`: geometric error `100 / 2**(i+1)`, content for the
visited level, the previously built tile (if any) as only child. -/
def mkTile (bv : List ℚ) (i level : Nat) (prev : Option TileNode) : TileNode :=
  .node none bv (100 / 2 ^ (i + 1)) "REPLACE" (some (tileUri level)) prev.toList

/-- One iteration of `for i, lod in enumerate(reversed(lod_models))`. -/
def chainStep (bv : List ℚ) (acc : Option TileNode × Nat) (lod : LodModel) :
    Option TileNode × Nat :=
  (some (mkTile bv acc.2 lod.level acc.1), acc.2 + 1)

/-- `FBX2Tiles.create_tileset_json`: the root tile carries the geodetic
transform, the fixed bounding volume, geometric error 100, refine REPLACE
and no content; the loop over `reversed(lod_models)` chains one tile per
level; the document wraps the root with geometric error 200 and the fixed
asset block. -/
noncomputable def create_tileset_json (lon lat h : ℝ)
    (lod_models : List LodModel) : Tileset :=
  let transform := get_transform_matrix lon lat h
  let bv := calculate_bounding_volume transform
  let pr := lod_models.reverse.foldl (chainStep bv) (none, 0)
  { version := "1.0", tilesetVersion := "1.0", gltfUpAxis := "Y",
    geometricError := 200,
    root := .node (some transform) bv 100 "REPLACE" none pr.1.toList }

/-! ### Helper lemmas about the byte-level building blocks -/

theorem strBytes_b3dm : strBytes "b3dm" = [98, 51, 100, 109] := by rfl

theorem strBytes_glTF : strBytes "glTF" = [103, 108, 84, 70] := by rfl

theorem le32_length (n : Nat) : (le32 n).length = 4 := by rfl

theorem ftBytes_length : ftBytes.length = 20 := by rfl

theorem btBytes_length : btBytes.length = 4 := by rfl

theorem fromLE32_le32 (n : Nat) (h : n < 4294967296) : fromLE32 (le32 n) = n := by
  simp only [le32, fromLE32]
  omega

theorem b3dmHeader_length (a b c d e : Nat) : (b3dmHeader a b c d e).length = 28 := by
  simp [b3dmHeader, le32, strBytes_b3dm]

theorem drop_append_len {α : Type} (a b : List α) (n : Nat) (h : a.length = n) :
    (a ++ b).drop n = b := by
  subst h; exact List.drop_left a b

theorem take_append_len {α : Type} (a b : List α) (n : Nat) (h : a.length = n) :
    (a ++ b).take n = a := by
  subst h; exact List.take_left a b

theorem create_b3dm_eq_some (doc : List (String × JVal)) (bin : Option (List Nat))
    (emb : Bool) (lod : Nat) (out : List Nat) :
    create_b3dm doc bin emb lod = some out ↔
      ∃ d, effDoc doc bin emb lod = some d ∧ b3dmBody d bin emb = out := by
  simp [create_b3dm, Option.map_eq_some']

theorem lookup_setKey_self (l : List (String × JVal)) (k : String) (v : JVal) :
    lookupKey (setKey l k v) k = some v := by
  induction l with
  | nil => simp [setKey, lookupKey]
  | cons hd tl ih =>
      obtain ⟨k', v'⟩ := hd
      by_cases hk : k' = k
      · simp [setKey, lookupKey, hk]
      · simp [setKey, lookupKey, hk, ih]

theorem lookup_setKey_ne (l : List (String × JVal)) (k : String) (v : JVal)
    (k' : String) (h : k' ≠ k) :
    lookupKey (setKey l k v) k' = lookupKey l k' := by
  have hks : ¬ k = k' := fun hh => h hh.symm
  induction l with
  | nil => simp [setKey, lookupKey, hks]
  | cons hd tl ih =>
      obtain ⟨a, b⟩ := hd
      by_cases hak : a = k
      · subst hak
        simp [setKey, lookupKey, hks]
      · simp [setKey, lookupKey, hak, ih]

theorem extPresent_false_of_none_or_emb (bin : Option (List Nat)) (emb : Bool)
    (h : bin = none ∨ emb = true) : extPresent bin emb = false := by
  rcases h with h | h
  · subst h; rfl
  · subst h; simp [extPresent]

theorem extPresent_true_of_ne (bb : List Nat) (h : bb ≠ []) :
    extPresent (some bb) false = true := by
  simp [extPresent, h]

/-! ### Claims about the B3DM packager -/

/-- C7: for every asset with no external binary buffer (buffer embedded or
absent), the payload section of the B3DM bytes returned by `create_b3dm` is
byte-identical to the serialization of the input document, with no GLB
wrapper and no buffer-URI rewrite applied. -/
theorem c7_payload_roundtrip (doc : List (String × JVal)) (bin : Option (List Nat))
    (emb : Bool) (lod : Nat) (h : extPresent bin emb = false) :
    create_b3dm doc bin emb lod =
      some (b3dmHeader ftBytes.length 0 btBytes.length 0
              (strBytes (dumps (.jobj doc))).length ++
            ftBytes ++ btBytes ++ strBytes (dumps (.jobj doc)))
    ∧ (b3dmHeader ftBytes.length 0 btBytes.length 0
          (strBytes (dumps (.jobj doc))).length ++
        ftBytes ++ btBytes ++ strBytes (dumps (.jobj doc))).drop
          (28 + ftBytes.length + btBytes.length) = strBytes (dumps (.jobj doc)) := by
  constructor
  · simp [create_b3dm, effDoc, h, b3dmBody, payloadBytes]
  · rw [List.append_assoc, List.append_assoc, ← List.append_assoc ftBytes,
        ← List.append_assoc (b3dmHeader _ _ _ _ _)]
    apply drop_append_len
    simp [b3dmHeader_length]
    omega

/-- Witness for C7 at a concrete embedded-buffer asset. -/
theorem c7_payload_roundtrip_witness :
    extPresent (some [1, 2]) true = false
    ∧ (create_b3dm [("scene", .jnum 0)] (some [1, 2]) true 5 =
        some (b3dmHeader ftBytes.length 0 btBytes.length 0
                (strBytes (dumps (.jobj [("scene", .jnum 0)]))).length ++
              ftBytes ++ btBytes ++ strBytes (dumps (.jobj [("scene", .jnum 0)])))
      ∧ (b3dmHeader ftBytes.length 0 btBytes.length 0
            (strBytes (dumps (.jobj [("scene", .jnum 0)]))).length ++
          ftBytes ++ btBytes ++ strBytes (dumps (.jobj [("scene", .jnum 0)]))).drop
            (28 + ftBytes.length + btBytes.length) =
          strBytes (dumps (.jobj [("scene", .jnum 0)]))) :=
  ⟨by rfl, c7_payload_roundtrip [("scene", .jnum 0)] (some [1, 2]) true 5 (by rfl)⟩

/-- C10: when buffer resolution reports embedded or absent (no external
buffer bytes), the B3DM bytes returned by `create_b3dm` are identical for
every pair of LOD levels: the `lod_level` argument has no effect. -/
theorem c10_lod_level_irrelevant (doc : List (String × JVal))
    (bin : Option (List Nat)) (emb : Bool) (i j : Nat)
    (h : bin = none ∨ emb = true) :
    create_b3dm doc bin emb i = create_b3dm doc bin emb j := by
  have hext : extPresent bin emb = false := extPresent_false_of_none_or_emb bin emb h
  simp [create_b3dm, effDoc, hext]

/-- Witness for C10 at a concrete buffer-less asset and levels 0 and 7. -/
theorem c10_lod_level_irrelevant_witness :
    ((none : Option (List Nat)) = none ∨ false = true)
    ∧ create_b3dm [("asset", .jstr "x")] none false 0 =
        create_b3dm [("asset", .jstr "x")] none false 7 :=
  ⟨Or.inl rfl,
   c10_lod_level_irrelevant [("asset", .jstr "x")] none false 0 7 (Or.inl rfl)⟩

/-- C9: in every B3DM produced by `create_b3dm`, the feature-table JSON and
batch-table JSON byte lengths are multiples of 4 after space padding, the
tables being the padded serializations of the object with BATCH_LENGTH 0
and of the empty object, and they sit right after the 28-byte header. -/
theorem c9_table_padding (doc : List (String × JVal)) (bin : Option (List Nat))
    (emb : Bool) (lod : Nat) (out : List Nat)
    (hout : create_b3dm doc bin emb lod = some out) :
    ftBytes = strBytes (pad4 (dumps (.jobj [("BATCH_LENGTH", .jnum 0)])))
    ∧ btBytes = strBytes (pad4 (dumps (.jobj [])))
    ∧ ftBytes.length = 20 ∧ btBytes.length = 4
    ∧ ftBytes.length % 4 = 0 ∧ btBytes.length % 4 = 0
    ∧ (out.drop 28).take ftBytes.length = ftBytes
    ∧ (out.drop (28 + ftBytes.length)).take btBytes.length = btBytes := by
  obtain ⟨d, hd, hbody⟩ := (create_b3dm_eq_some doc bin emb lod out).mp hout
  subst hbody
  refine ⟨rfl, rfl, ftBytes_length, btBytes_length, by rfl, by rfl, ?_, ?_⟩
  · rw [b3dmBody, List.append_assoc, List.append_assoc,
        drop_append_len _ _ 28 (b3dmHeader_length _ _ _ _ _),
        take_append_len _ _ _ rfl]
  · rw [b3dmBody, List.append_assoc, List.append_assoc, ← List.append_assoc,
        drop_append_len _ _ (28 + ftBytes.length) (by simp [b3dmHeader_length]),
        take_append_len _ _ _ rfl]

/-- Witness for C9 at a concrete asset. -/
theorem c9_table_padding_witness :
    create_b3dm [] none false 0 = some (b3dmBody [] none false)
    ∧ (ftBytes = strBytes (pad4 (dumps (.jobj [("BATCH_LENGTH", .jnum 0)])))
      ∧ btBytes = strBytes (pad4 (dumps (.jobj [])))
      ∧ ftBytes.length = 20 ∧ btBytes.length = 4
      ∧ ftBytes.length % 4 = 0 ∧ btBytes.length % 4 = 0
      ∧ ((b3dmBody [] none false).drop 28).take ftBytes.length = ftBytes
      ∧ ((b3dmBody [] none false).drop (28 + ftBytes.length)).take btBytes.length
          = btBytes) :=
  ⟨rfl, c9_table_padding [] none false 0 (b3dmBody [] none false) rfl⟩

theorem extract4 (pre mid post : List Nat) (n : Nat) (hpre : pre.length = n)
    (hmid : mid.length = 4) : ((pre ++ (mid ++ post)).drop n).take 4 = mid := by
  rw [drop_append_len pre (mid ++ post) n hpre]
  exact take_append_len mid post 4 hmid

/-- C6: every B3DM returned by `create_b3dm` starts with a 28-byte header —
magic `b3dm`, version 1, little-endian total length equal to 28 plus the two
JSON table lengths plus the two (always zero) binary table lengths plus the
payload length — followed by exactly the feature-table JSON bytes, the
batch-table JSON bytes and the payload, in that order. -/
theorem c6_b3dm_header_layout (doc : List (String × JVal)) (bin : Option (List Nat))
    (emb : Bool) (lod : Nat) (d : List (String × JVal)) (out : List Nat)
    (hd : effDoc doc bin emb lod = some d)
    (hout : create_b3dm doc bin emb lod = some out) :
    out = strBytes "b3dm" ++ le32 1
        ++ le32 (28 + ftBytes.length + 0 + btBytes.length + 0 +
                 (payloadBytes d bin emb).length)
        ++ le32 ftBytes.length ++ le32 0 ++ le32 btBytes.length ++ le32 0
        ++ ftBytes ++ btBytes ++ payloadBytes d bin emb
    ∧ out.length = 28 + ftBytes.length + btBytes.length + (payloadBytes d bin emb).length
    ∧ (out.take 4 = strBytes "b3dm")
    ∧ ((out.drop 4).take 4 = le32 1)
    ∧ ((out.drop 8).take 4 =
        le32 (28 + ftBytes.length + 0 + btBytes.length + 0 +
              (payloadBytes d bin emb).length))
    ∧ ((out.drop 12).take 4 = le32 ftBytes.length)
    ∧ ((out.drop 16).take 4 = le32 0)
    ∧ ((out.drop 20).take 4 = le32 btBytes.length)
    ∧ ((out.drop 24).take 4 = le32 0)
    ∧ (out.drop 28 = ftBytes ++ btBytes ++ payloadBytes d bin emb)
    ∧ (28 + ftBytes.length + 0 + btBytes.length + 0 +
         (payloadBytes d bin emb).length < 4294967296 →
        fromLE32 ((out.drop 8).take 4) =
          28 + ftBytes.length + 0 + btBytes.length + 0 +
            (payloadBytes d bin emb).length) := by
  obtain ⟨d', hd', hbody⟩ := (create_b3dm_eq_some doc bin emb lod out).mp hout
  rw [hd] at hd'
  have hdd : d = d' := by injection hd'
  subst hdd
  subst hbody
  have h8 : (strBytes "b3dm" ++ le32 1).length = 8 := by
    simp [strBytes_b3dm, le32_length]
  have hT : ((b3dmBody d bin emb).drop 8).take 4 =
      le32 (28 + ftBytes.length + 0 + btBytes.length + 0 +
            (payloadBytes d bin emb).length) := by
    have hsplit : b3dmBody d bin emb = (strBytes "b3dm" ++ le32 1) ++
        (le32 (28 + ftBytes.length + 0 + btBytes.length + 0 +
               (payloadBytes d bin emb).length) ++
         (le32 ftBytes.length ++ le32 0 ++ le32 btBytes.length ++ le32 0 ++
          ftBytes ++ btBytes ++ payloadBytes d bin emb)) := by
      simp [b3dmBody, b3dmHeader, List.append_assoc]
    rw [hsplit]; exact extract4 _ _ _ 8 h8 (le32_length _)
  refine ⟨?_, ?_, ?_, ?_, hT, ?_, ?_, ?_, ?_, ?_, ?_⟩
  · simp [b3dmBody, b3dmHeader, List.append_assoc]
  · simp [b3dmBody, b3dmHeader_length]; omega
  · have hsplit : b3dmBody d bin emb = strBytes "b3dm" ++
        (le32 1 ++ (le32 (28 + ftBytes.length + 0 + btBytes.length + 0 +
          (payloadBytes d bin emb).length) ++ (le32 ftBytes.length ++ le32 0 ++
          le32 btBytes.length ++ le32 0 ++ ftBytes ++ btBytes ++
          payloadBytes d bin emb))) := by
      simp [b3dmBody, b3dmHeader, List.append_assoc]
    rw [hsplit]
    exact take_append_len _ _ 4 (by simp [strBytes_b3dm])
  · have hsplit : b3dmBody d bin emb = strBytes "b3dm" ++
        (le32 1 ++ (le32 (28 + ftBytes.length + 0 + btBytes.length + 0 +
          (payloadBytes d bin emb).length) ++ (le32 ftBytes.length ++ le32 0 ++
          le32 btBytes.length ++ le32 0 ++ ftBytes ++ btBytes ++
          payloadBytes d bin emb))) := by
      simp [b3dmBody, b3dmHeader, List.append_assoc]
    rw [hsplit]
    exact extract4 _ _ _ 4 (by simp [strBytes_b3dm]) (le32_length _)
  · have hsplit : b3dmBody d bin emb = (strBytes "b3dm" ++ le32 1 ++
        le32 (28 + ftBytes.length + 0 + btBytes.length + 0 +
          (payloadBytes d bin emb).length)) ++
        (le32 ftBytes.length ++ (le32 0 ++ le32 btBytes.length ++ le32 0 ++
          ftBytes ++ btBytes ++ payloadBytes d bin emb)) := by
      simp [b3dmBody, b3dmHeader, List.append_assoc]
    rw [hsplit]
    exact extract4 _ _ _ 12 (by simp [strBytes_b3dm, le32_length]) (le32_length _)
  · have hsplit : b3dmBody d bin emb = (strBytes "b3dm" ++ le32 1 ++
        le32 (28 + ftBytes.length + 0 + btBytes.length + 0 +
          (payloadBytes d bin emb).length) ++ le32 ftBytes.length) ++
        (le32 0 ++ (le32 btBytes.length ++ le32 0 ++
          ftBytes ++ btBytes ++ payloadBytes d bin emb)) := by
      simp [b3dmBody, b3dmHeader, List.append_assoc]
    rw [hsplit]
    exact extract4 _ _ _ 16 (by simp [strBytes_b3dm, le32_length]) (le32_length _)
  · have hsplit : b3dmBody d bin emb = (strBytes "b3dm" ++ le32 1 ++
        le32 (28 + ftBytes.length + 0 + btBytes.length + 0 +
          (payloadBytes d bin emb).length) ++ le32 ftBytes.length ++ le32 0) ++
        (le32 btBytes.length ++ (le32 0 ++
          ftBytes ++ btBytes ++ payloadBytes d bin emb)) := by
      simp [b3dmBody, b3dmHeader, List.append_assoc]
    rw [hsplit]
    exact extract4 _ _ _ 20 (by simp [strBytes_b3dm, le32_length]) (le32_length _)
  · have hsplit : b3dmBody d bin emb = (strBytes "b3dm" ++ le32 1 ++
        le32 (28 + ftBytes.length + 0 + btBytes.length + 0 +
          (payloadBytes d bin emb).length) ++ le32 ftBytes.length ++ le32 0 ++
        le32 btBytes.length) ++
        (le32 0 ++ (ftBytes ++ btBytes ++ payloadBytes d bin emb)) := by
      simp [b3dmBody, b3dmHeader, List.append_assoc]
    rw [hsplit]
    exact extract4 _ _ _ 24 (by simp [strBytes_b3dm, le32_length]) (le32_length _)
  · rw [b3dmBody, List.append_assoc, List.append_assoc]
    rw [drop_append_len _ _ 28 (b3dmHeader_length _ _ _ _ _)]
    simp [List.append_assoc]
  · intro hlt
    rw [hT]
    exact fromLE32_le32 _ hlt

/-- Witness for C6 at a concrete asset (empty document, no buffer). -/
theorem c6_b3dm_header_layout_witness :
    effDoc [] none false 0 = some []
    ∧ create_b3dm [] none false 0 = some (b3dmBody [] none false)
    ∧ (b3dmBody [] none false = strBytes "b3dm" ++ le32 1
        ++ le32 (28 + ftBytes.length + 0 + btBytes.length + 0 +
                 (payloadBytes [] none false).length)
        ++ le32 ftBytes.length ++ le32 0 ++ le32 btBytes.length ++ le32 0
        ++ ftBytes ++ btBytes ++ payloadBytes [] none false
      ∧ (b3dmBody [] none false).length =
          28 + ftBytes.length + btBytes.length + (payloadBytes [] none false).length
      ∧ ((b3dmBody [] none false).take 4 = strBytes "b3dm")
      ∧ (((b3dmBody [] none false).drop 4).take 4 = le32 1)
      ∧ (((b3dmBody [] none false).drop 8).take 4 =
          le32 (28 + ftBytes.length + 0 + btBytes.length + 0 +
                (payloadBytes [] none false).length))
      ∧ (((b3dmBody [] none false).drop 12).take 4 = le32 ftBytes.length)
      ∧ (((b3dmBody [] none false).drop 16).take 4 = le32 0)
      ∧ (((b3dmBody [] none false).drop 20).take 4 = le32 btBytes.length)
      ∧ (((b3dmBody [] none false).drop 24).take 4 = le32 0)
      ∧ ((b3dmBody [] none false).drop 28 =
          ftBytes ++ btBytes ++ payloadBytes [] none false)
      ∧ (28 + ftBytes.length + 0 + btBytes.length + 0 +
           (payloadBytes [] none false).length < 4294967296 →
          fromLE32 (((b3dmBody [] none false).drop 8).take 4) =
            28 + ftBytes.length + 0 + btBytes.length + 0 +
              (payloadBytes [] none false).length)) :=
  ⟨rfl, rfl, c6_b3dm_header_layout [] none false 0 [] (b3dmBody [] none false) rfl rfl⟩

/-- C5: for every asset with an external binary buffer, the payload produced
by `create_b3dm` is the 12-byte GLB header (magic `glTF`, version 2, total
length 28 plus the serialized document plus the buffer), then the JSON chunk
(length of the document bytes, tag 0x4E4F534A which is the ASCII bytes
`JSON`, the document bytes with no padding), then the BIN chunk (buffer
length, tag 0x004E4942 which is `BIN` followed by a NUL byte, the raw buffer
bytes). -/
theorem c5_glb_layout (doc d : List (String × JVal)) (bb : List Nat) (lod : Nat)
    (out : List Nat) (hbb : bb ≠ [])
    (hd : effDoc doc (some bb) false lod = some d)
    (hout : create_b3dm doc (some bb) false lod = some out) :
    payloadBytes d (some bb) false =
      strBytes "glTF" ++ le32 2
        ++ le32 (28 + (strBytes (dumps (.jobj d))).length + bb.length)
        ++ le32 (strBytes (dumps (.jobj d))).length ++ le32 0x4E4F534A
        ++ strBytes (dumps (.jobj d))
        ++ le32 bb.length ++ le32 0x004E4942 ++ bb
    ∧ le32 0x4E4F534A = strBytes "JSON"
    ∧ le32 0x004E4942 = [66, 73, 78, 0]
    ∧ (strBytes "glTF" ++ le32 2 ++
        le32 (28 + (strBytes (dumps (.jobj d))).length + bb.length)).length = 12
    ∧ out.drop (28 + ftBytes.length + btBytes.length) =
        payloadBytes d (some bb) false := by
  have hext : extPresent (some bb) false = true := extPresent_true_of_ne bb hbb
  have harg : (strBytes (dumps (.jobj d))).length + bb.length + 28 =
      28 + (strBytes (dumps (.jobj d))).length + bb.length := by omega
  refine ⟨?_, by rfl, by rfl, by simp [strBytes_glTF, le32_length], ?_⟩
  · simp only [payloadBytes, hext, if_true, glbWrap, Option.getD_some, harg]
  · obtain ⟨d', hd', hbody⟩ :=
      (create_b3dm_eq_some doc (some bb) false lod out).mp hout
    rw [hd] at hd'
    have hdd : d = d' := by injection hd'
    subst hdd
    subst hbody
    have hsplit : b3dmBody d (some bb) false =
        (b3dmHeader ftBytes.length 0 btBytes.length 0
            (payloadBytes d (some bb) false).length ++ ftBytes ++ btBytes) ++
          payloadBytes d (some bb) false := by
      simp [b3dmBody, List.append_assoc]
    rw [hsplit]
    exact drop_append_len _ _ _ (by simp [b3dmHeader_length]; omega)

/-- Concrete input document for the C5 witness: one declared buffer. -/
def doc5In : List (String × JVal) :=
  [("buffers", .jarr [.jobj [("byteLength", .jnum 4)]])]

/-- The document C5's witness input serializes after the URI rewrite. -/
def doc5Out : List (String × JVal) :=
  [("buffers", .jarr [.jobj [("byteLength", .jnum 4),
                             ("uri", .jstr (bufferUri 2))]])]

/-- Witness for C5 at a concrete external-buffer asset. -/
theorem c5_glb_layout_witness :
    ([9, 9] : List Nat) ≠ []
    ∧ effDoc doc5In (some [9, 9]) false 2 = some doc5Out
    ∧ create_b3dm doc5In (some [9, 9]) false 2 = some (b3dmBody doc5Out (some [9, 9]) false)
    ∧ (payloadBytes doc5Out (some [9, 9]) false =
        strBytes "glTF" ++ le32 2
          ++ le32 (28 + (strBytes (dumps (.jobj doc5Out))).length + ([9, 9] : List Nat).length)
          ++ le32 (strBytes (dumps (.jobj doc5Out))).length ++ le32 0x4E4F534A
          ++ strBytes (dumps (.jobj doc5Out))
          ++ le32 ([9, 9] : List Nat).length ++ le32 0x004E4942 ++ [9, 9]
      ∧ le32 0x4E4F534A = strBytes "JSON"
      ∧ le32 0x004E4942 = [66, 73, 78, 0]
      ∧ (strBytes "glTF" ++ le32 2 ++
          le32 (28 + (strBytes (dumps (.jobj doc5Out))).length + ([9, 9] : List Nat).length)).length = 12
      ∧ (b3dmBody doc5Out (some [9, 9]) false).drop
            (28 + ftBytes.length + btBytes.length) =
          payloadBytes doc5Out (some [9, 9]) false) :=
  ⟨by decide, by rfl, by rfl,
   c5_glb_layout doc5In doc5Out [9, 9] 2 (b3dmBody doc5Out (some [9, 9]) false)
     (by decide) (by rfl) (by rfl)⟩

/-- C8: the only document modification `create_b3dm` makes is setting the
`uri` field of the first declared buffer to `buffer_lod{level}.bin`, and it
does so only when an external buffer is present; every other top-level
field, every other field of the first buffer, the remaining buffers, and
the whole document in the embedded/absent case are left unchanged. -/
theorem c8_only_first_buffer_uri (doc : List (String × JVal))
    (bin : Option (List Nat)) (emb : Bool) (lod : Nat)
    (d : List (String × JVal)) (hd : effDoc doc bin emb lod = some d) :
    (extPresent bin emb = false → d = doc)
    ∧ (∀ k, k ≠ "buffers" → lookupKey d k = lookupKey doc k)
    ∧ (extPresent bin emb = true →
        (lookupKey doc "buffers" = none → d = doc)
        ∧ (lookupKey doc "buffers" = some (.jarr []) → d = doc)
        ∧ ∀ bf rest, lookupKey doc "buffers" = some (.jarr (.jobj bf :: rest)) →
            lookupKey d "buffers" =
              some (.jarr (.jobj (setKey bf "uri" (.jstr (bufferUri lod))) :: rest))
            ∧ ∀ k, k ≠ "uri" →
                lookupKey (setKey bf "uri" (.jstr (bufferUri lod))) k =
                  lookupKey bf k) := by
  by_cases hext : extPresent bin emb = true
  · rw [effDoc, if_pos hext] at hd
    refine ⟨fun hfalse => absurd hext (by simp [hfalse]), ?_, fun _ => ⟨?_, ?_, ?_⟩⟩
    · intro k hk
      rw [rewriteBuffers] at hd
      split at hd
      · obtain rfl : doc = d := by injection hd
        rfl
      · obtain rfl : doc = d := by injection hd
        rfl
      · obtain rfl : _ = d := by injection hd
        exact lookup_setKey_ne doc "buffers" _ k hk
      · exact absurd hd (by simp)
      · split at hd
        · obtain rfl : doc = d := by injection hd
          rfl
        · exact absurd hd (by simp)
      · split at hd
        · obtain rfl : doc = d := by injection hd
          rfl
        · exact absurd hd (by simp)
      · exact absurd hd (by simp)
    · intro hnone
      rw [rewriteBuffers, hnone] at hd
      obtain rfl : doc = d := by injection hd
      rfl
    · intro hempty
      rw [rewriteBuffers, hempty] at hd
      obtain rfl : doc = d := by injection hd
      rfl
    · intro bf rest hbf
      rw [rewriteBuffers, hbf] at hd
      obtain rfl : _ = d := by injection hd
      exact ⟨lookup_setKey_self doc "buffers" _,
             fun k hk => lookup_setKey_ne bf "uri" _ k hk⟩
  · rw [effDoc, if_neg hext] at hd
    obtain rfl : doc = d := by injection hd
    exact ⟨fun _ => rfl, fun _ _ => rfl, fun htrue => absurd htrue hext⟩

/-- Witness for C8 at a concrete two-buffer document with an external
buffer: only the first buffer's `uri` changes. -/
theorem c8_only_first_buffer_uri_witness :
    effDoc [("buffers", .jarr [.jobj [("byteLength", .jnum 8)], .jobj []]),
            ("nodes", .jarr [])] (some [1]) false 3 =
      some [("buffers", .jarr [.jobj [("byteLength", .jnum 8),
                                      ("uri", .jstr (bufferUri 3))], .jobj []]),
            ("nodes", .jarr [])]
    ∧ ((extPresent (some [1]) false = false →
          ([("buffers", .jarr [.jobj [("byteLength", .jnum 8),
                                      ("uri", .jstr (bufferUri 3))], .jobj []]),
            ("nodes", .jarr [])] : List (String × JVal)) =
          [("buffers", .jarr [.jobj [("byteLength", .jnum 8)], .jobj []]),
           ("nodes", .jarr [])])
      ∧ (∀ k, k ≠ "buffers" →
          lookupKey [("buffers", .jarr [.jobj [("byteLength", .jnum 8),
                                               ("uri", .jstr (bufferUri 3))], .jobj []]),
                     ("nodes", .jarr [])] k =
            lookupKey [("buffers", .jarr [.jobj [("byteLength", .jnum 8)], .jobj []]),
                       ("nodes", .jarr [])] k)
      ∧ (extPresent (some [1]) false = true →
          (lookupKey [("buffers", .jarr [.jobj [("byteLength", .jnum 8)], .jobj []]),
                      ("nodes", .jarr [])] "buffers" = none →
            ([("buffers", .jarr [.jobj [("byteLength", .jnum 8),
                                        ("uri", .jstr (bufferUri 3))], .jobj []]),
              ("nodes", .jarr [])] : List (String × JVal)) =
            [("buffers", .jarr [.jobj [("byteLength", .jnum 8)], .jobj []]),
             ("nodes", .jarr [])])
          ∧ (lookupKey [("buffers", .jarr [.jobj [("byteLength", .jnum 8)], .jobj []]),
                        ("nodes", .jarr [])] "buffers" = some (.jarr []) →
              ([("buffers", .jarr [.jobj [("byteLength", .jnum 8),
                                          ("uri", .jstr (bufferUri 3))], .jobj []]),
                ("nodes", .jarr [])] : List (String × JVal)) =
              [("buffers", .jarr [.jobj [("byteLength", .jnum 8)], .jobj []]),
               ("nodes", .jarr [])])
          ∧ ∀ bf rest,
              lookupKey [("buffers", .jarr [.jobj [("byteLength", .jnum 8)], .jobj []]),
                         ("nodes", .jarr [])] "buffers" =
                some (.jarr (.jobj bf :: rest)) →
              lookupKey [("buffers", .jarr [.jobj [("byteLength", .jnum 8),
                                                   ("uri", .jstr (bufferUri 3))], .jobj []]),
                         ("nodes", .jarr [])] "buffers" =
                some (.jarr (.jobj (setKey bf "uri" (.jstr (bufferUri 3))) :: rest))
              ∧ ∀ k, k ≠ "uri" →
                  lookupKey (setKey bf "uri" (.jstr (bufferUri 3))) k =
                    lookupKey bf k)) :=
  ⟨by rfl,
   c8_only_first_buffer_uri
     [("buffers", .jarr [.jobj [("byteLength", .jnum 8)], .jobj []]),
      ("nodes", .jarr [])] (some [1]) false 3
     [("buffers", .jarr [.jobj [("byteLength", .jnum 8),
                                ("uri", .jstr (bufferUri 3))], .jobj []]),
      ("nodes", .jarr [])] (by rfl)⟩

/-- Concrete C3 document: its single buffer declares byte length 1024. -/
def doc1024 : List (String × JVal) :=
  [("buffers", .jarr [.jobj [("byteLength", .jnum 1024), ("uri", .jstr "model.bin")]])]

/-- The C3 document after the URI rewrite `create_b3dm` performs. -/
def doc1024R : List (String × JVal) :=
  [("buffers", .jarr [.jobj [("byteLength", .jnum 1024),
                             ("uri", .jstr (bufferUri 0))]])]

set_option maxRecDepth 40000 in
/-- Counterexample to C3: a document declaring buffer byte length 1024
packaged with a 512-byte external buffer does not fail — `create_b3dm`
returns a full 653-byte B3DM buffer starting with the `b3dm` magic. -/
theorem c3_counterexample :
    (create_b3dm doc1024 (some (List.replicate 512 0)) false 0).isSome = true
    ∧ ((create_b3dm doc1024 (some (List.replicate 512 0)) false 0).getD []).length = 653
    ∧ ((create_b3dm doc1024 (some (List.replicate 512 0)) false 0).getD []).take 4 =
        strBytes "b3dm" := by
  refine ⟨by rfl, by decide, by decide⟩

/-- C3 amended: `create_b3dm` performs no buffer-length validation at all;
whenever the URI-rewrite step succeeds it returns the packaged bytes, for
any supplied buffer whatever the declared byte length. -/
theorem c3_no_length_validation (doc d : List (String × JVal))
    (bin : Option (List Nat)) (emb : Bool) (lod : Nat)
    (hd : effDoc doc bin emb lod = some d) :
    create_b3dm doc bin emb lod = some (b3dmBody d bin emb)
    ∧ 28 ≤ (b3dmBody d bin emb).length := by
  constructor
  · simp [create_b3dm, hd]
  · simp [b3dmBody, b3dmHeader_length]

/-- Witness for amended C3 at the mismatched 1024/512 input. -/
theorem c3_no_length_validation_witness :
    effDoc doc1024 (some (List.replicate 512 0)) false 0 = some doc1024R
    ∧ (create_b3dm doc1024 (some (List.replicate 512 0)) false 0 =
        some (b3dmBody doc1024R (some (List.replicate 512 0)) false)
      ∧ 28 ≤ (b3dmBody doc1024R (some (List.replicate 512 0)) false).length) :=
  ⟨by rfl,
   c3_no_length_validation doc1024 doc1024R (some (List.replicate 512 0)) false 0
     (by rfl)⟩

/-! ### The LOD chain built by `create_tileset_json` -/

/-- Closed form of the loop state: processing the reversed levels
`m-1, ..., 0` starting at enumeration index `i` with previously built tile
`prev`. -/
def buildUp (bv : List ℚ) : Nat → Nat → Option TileNode → Option TileNode
  | 0, _, prev => prev
  | m + 1, i, prev => buildUp bv m (i + 1) (some (mkTile bv i m prev))

/-- Chain of an optional tile. -/
def chainOpt : Option TileNode → List TileNode
  | none => []
  | some t => t.chain

/-- The observable data of a chain node: geometric error and content URI. -/
def tileInfo (t : TileNode) : ℚ × Option String := (t.geometricError, t.content)

theorem range_reverse_succ (m : Nat) :
    (List.range (m + 1)).reverse = m :: (List.range m).reverse := by
  rw [List.range_succ, List.reverse_append]
  rfl

theorem loop_spec (bv : List ℚ) :
    ∀ (m i : Nat) (prev : Option TileNode),
      ((List.range m).reverse.map LodModel.mk).foldl (chainStep bv) (prev, i) =
        (buildUp bv m i prev, i + m) := by
  intro m
  induction m with
  | zero => intro i prev; rfl
  | succ m ih =>
      intro i prev
      rw [range_reverse_succ]
      simp only [List.map_cons, List.foldl_cons]
      rw [show chainStep bv (prev, i) (LodModel.mk m) =
            (some (mkTile bv i m prev), i + 1) from rfl]
      rw [ih (i + 1) (some (mkTile bv i m prev))]
      rw [show buildUp bv (m + 1) i prev =
            buildUp bv m (i + 1) (some (mkTile bv i m prev)) from rfl]
      rw [Nat.add_assoc, Nat.add_comm 1 m]

theorem mkTile_chain (bv : List ℚ) (i lvl : Nat) (prev : Option TileNode) :
    (mkTile bv i lvl prev).chain = mkTile bv i lvl prev :: chainOpt prev := by
  cases prev with
  | none => rfl
  | some p => rfl

theorem buildUp_chain_info (bv : List ℚ) :
    ∀ (m i : Nat) (prev : Option TileNode),
      (chainOpt (buildUp bv m i prev)).map tileInfo =
        (List.range m).map
            (fun j => ((100 : ℚ) / 2 ^ (i + m - j), some (tileUri j))) ++
          (chainOpt prev).map tileInfo := by
  intro m
  induction m with
  | zero => intro i prev; simp [buildUp]
  | succ m ih =>
      intro i prev
      rw [show buildUp bv (m + 1) i prev =
            buildUp bv m (i + 1) (some (mkTile bv i m prev)) from rfl]
      rw [ih (i + 1) (some (mkTile bv i m prev))]
      rw [show chainOpt (some (mkTile bv i m prev)) = (mkTile bv i m prev).chain
            from rfl]
      rw [mkTile_chain]
      rw [List.range_succ, List.map_append, List.map_cons, List.map_cons]
      have hfun : (fun j => ((100 : ℚ) / 2 ^ (i + 1 + m - j), some (tileUri j))) =
          (fun j => ((100 : ℚ) / 2 ^ (i + (m + 1) - j), some (tileUri j))) := by
        funext j
        have : i + 1 + m - j = i + (m + 1) - j := by omega
        rw [this]
      rw [hfun]
      have hlast : tileInfo (mkTile bv i m prev) =
          ((100 : ℚ) / 2 ^ (i + (m + 1) - m), some (tileUri m)) := by
        have : i + (m + 1) - m = i + 1 := by omega
        rw [this]
        rfl
      rw [hlast]
      simp [List.append_assoc]

theorem buildUp_children_le (bv : List ℚ) :
    ∀ (m i : Nat) (prev : Option TileNode),
      (∀ t ∈ chainOpt prev, t.children.length ≤ 1) →
      ∀ t ∈ chainOpt (buildUp bv m i prev), t.children.length ≤ 1 := by
  intro m
  induction m with
  | zero => intro i prev hprev; exact hprev
  | succ m ih =>
      intro i prev hprev
      refine ih (i + 1) (some (mkTile bv i m prev)) ?_
      intro t ht
      rw [show chainOpt (some (mkTile bv i m prev)) = (mkTile bv i m prev).chain
            from rfl, mkTile_chain] at ht
      rcases List.mem_cons.mp ht with ht1 | ht1
      · subst ht1
        cases prev <;> simp [mkTile, TileNode.children]
      · exact hprev t ht1

theorem lodModels_reverse (n : Nat) :
    (lodModels n).reverse = (List.range n).reverse.map LodModel.mk := by
  simp [lodModels]

theorem create_tileset_json_eq (lon lat h : ℝ) (ms : List LodModel) :
    create_tileset_json lon lat h ms =
      { version := "1.0", tilesetVersion := "1.0", gltfUpAxis := "Y",
        geometricError := 200,
        root := TileNode.node (some (get_transform_matrix lon lat h))
            (calculate_bounding_volume (get_transform_matrix lon lat h))
            100 "REPLACE" none
            ((ms.reverse.foldl
                (chainStep (calculate_bounding_volume (get_transform_matrix lon lat h)))
                (none, 0)).1.toList) } := rfl

theorem root_of_lodModels (lon lat h : ℝ) (N : Nat) :
    (create_tileset_json lon lat h (lodModels N)).root =
      TileNode.node (some (get_transform_matrix lon lat h))
        (calculate_bounding_volume (get_transform_matrix lon lat h))
        100 "REPLACE" none
        ((buildUp (calculate_bounding_volume (get_transform_matrix lon lat h))
            N 0 none).toList) := by
  rw [create_tileset_json_eq]
  rw [lodModels_reverse,
      loop_spec (calculate_bounding_volume (get_transform_matrix lon lat h)) N 0 none]

/-- C1 (amended): for `N` tiles at levels `0..N-1` the tileset has document
geometric error 200 and a root with geometric error 100 and no content whose
unique descendant chain has exactly `N` nodes, but ordered with the root's
direct child being `tiles/model_lod0.b3dm` at geometric error `100/2^N` and
the error doubling at each step down, ending at `tiles/model_lod{N-1}.b3dm`
with geometric error `100/2`. -/
theorem c1_lod_chain (lon lat h : ℝ) (N : Nat) (hN : 0 < N) :
    (create_tileset_json lon lat h (lodModels N)).geometricError = 200
    ∧ (create_tileset_json lon lat h (lodModels N)).root.geometricError = 100
    ∧ (create_tileset_json lon lat h (lodModels N)).root.content = none
    ∧ (create_tileset_json lon lat h (lodModels N)).root.chain.map tileInfo =
        ((100 : ℚ), (none : Option String)) ::
          (List.range N).map
            (fun j => ((100 : ℚ) / 2 ^ (N - j), some (tileUri j)))
    ∧ (∀ t ∈ (create_tileset_json lon lat h (lodModels N)).root.chain,
        t.children.length ≤ 1)
    ∧ (create_tileset_json lon lat h (lodModels N)).root.chain.length = N + 1 := by
  have hroot := root_of_lodModels lon lat h N
  have hinfo := buildUp_chain_info
    (calculate_bounding_volume (get_transform_matrix lon lat h)) N 0 none
  have hzero : (fun j => ((100 : ℚ) / 2 ^ (0 + N - j), some (tileUri j))) =
      (fun j => ((100 : ℚ) / 2 ^ (N - j), some (tileUri j))) := by
    funext j
    rw [Nat.zero_add]
  rw [hzero] at hinfo
  cases hB : buildUp (calculate_bounding_volume (get_transform_matrix lon lat h))
      N 0 none with
  | none =>
      exfalso
      rw [hB] at hinfo
      have hlen := congrArg List.length hinfo
      simp [chainOpt] at hlen
      omega
  | some top =>
      rw [hB] at hroot hinfo
      have hchain : (create_tileset_json lon lat h (lodModels N)).root.chain =
          (create_tileset_json lon lat h (lodModels N)).root :: top.chain := by
        rw [hroot]
        rfl
      have htop : top.chain.map tileInfo =
          (List.range N).map
            (fun j => ((100 : ℚ) / 2 ^ (N - j), some (tileUri j))) := by
        rw [show top.chain = chainOpt (some top) from rfl, hinfo]
        simp [chainOpt]
      refine ⟨rfl, by rw [hroot]; rfl, by rw [hroot]; rfl, ?_, ?_, ?_⟩
      · rw [hchain, List.map_cons, htop, hroot]
        rfl
      · intro t ht
        rw [hchain] at ht
        rcases List.mem_cons.mp ht with ht1 | ht1
        · subst ht1
          rw [hroot]
          simp [TileNode.children]
        · have := buildUp_children_le
            (calculate_bounding_volume (get_transform_matrix lon lat h)) N 0 none
            (by intro t ht; simp [chainOpt] at ht)
          rw [hB] at this
          exact this t (by rw [show chainOpt (some top) = top.chain from rfl]; exact ht1)
      · have := congrArg List.length (hchain.symm ▸ (List.map_cons tileInfo _ top.chain))
        have hlen := congrArg List.length htop
        simp at hlen
        rw [hchain]
        simp [hlen]

/-- Counterexample to C1 as stated: with 3 LOD levels the root's direct
child carries `tiles/model_lod0.b3dm` at geometric error `100/2^3 = 12.5`,
not `tiles/model_lod2.b3dm` at 50 — the chain is ordered finest-first from
the root down, the reverse of the claimed order. -/
theorem c1_counterexample :
    ((create_tileset_json 116.3912757 39.906217 0 (lodModels 3)).root.children.head?).map
        TileNode.content = some (some (tileUri 0))
    ∧ ((create_tileset_json 116.3912757 39.906217 0 (lodModels 3)).root.children.head?).map
        TileNode.geometricError = some ((100 : ℚ) / 2 ^ 3)
    ∧ tileUri 0 ≠ tileUri 2
    ∧ ((100 : ℚ) / 2 ^ 3 ≠ 50) := by
  have hroot := root_of_lodModels 116.3912757 39.906217 0 3
  refine ⟨?_, ?_, by decide, by norm_num⟩
  · rw [hroot]; rfl
  · rw [hroot]; rfl

/-- Witness for the amended C1 at the concrete anchor and 3 levels. -/
theorem c1_lod_chain_witness :
    0 < 3
    ∧ ((create_tileset_json 116.3912757 39.906217 0 (lodModels 3)).geometricError = 200
      ∧ (create_tileset_json 116.3912757 39.906217 0 (lodModels 3)).root.geometricError = 100
      ∧ (create_tileset_json 116.3912757 39.906217 0 (lodModels 3)).root.content = none
      ∧ (create_tileset_json 116.3912757 39.906217 0 (lodModels 3)).root.chain.map tileInfo =
          ((100 : ℚ), (none : Option String)) ::
            (List.range 3).map
              (fun j => ((100 : ℚ) / 2 ^ (3 - j), some (tileUri j)))
      ∧ (∀ t ∈ (create_tileset_json 116.3912757 39.906217 0 (lodModels 3)).root.chain,
          t.children.length ≤ 1)
      ∧ (create_tileset_json 116.3912757 39.906217 0 (lodModels 3)).root.chain.length = 3 + 1) :=
  ⟨by decide, c1_lod_chain 116.3912757 39.906217 0 3 (by decide)⟩

/-- Counterexample to C4 as stated: on an empty tile list
`create_tileset_json` does not fail — it returns a tileset document with
document geometric error 200 and a childless, content-less root. -/
theorem c4_counterexample :
    (create_tileset_json 116.3912757 39.906217 0 []).geometricError = 200
    ∧ (create_tileset_json 116.3912757 39.906217 0 []).root.geometricError = 100
    ∧ (create_tileset_json 116.3912757 39.906217 0 []).root.refinePolicy = "REPLACE"
    ∧ (create_tileset_json 116.3912757 39.906217 0 []).root.content = none
    ∧ (create_tileset_json 116.3912757 39.906217 0 []).root.children = [] :=
  ⟨rfl, rfl, rfl, rfl, rfl⟩

/-- C4 (amended): for every anchor, building from an empty tile sequence
raises no error and returns the tileset document whose root has an empty
children list and no content. -/
theorem c4_empty_returns_document (lon lat h : ℝ) :
    (create_tileset_json lon lat h []).geometricError = 200
    ∧ (create_tileset_json lon lat h []).root.geometricError = 100
    ∧ (create_tileset_json lon lat h []).root.refinePolicy = "REPLACE"
    ∧ (create_tileset_json lon lat h []).root.content = none
    ∧ (create_tileset_json lon lat h []).root.children = [] :=
  ⟨rfl, rfl, rfl, rfl, rfl⟩

/-- C2 (code bug): reading the 16-number array of `get_transform_matrix`
column-major, column 0 is not the East vector. At lon = 0, lat = 90 the
flat entry at index 1 (column 0, row 1) is
`-sin(radians 90) * cos(radians 0) = -1`, while the claimed East vector has
`cos(lon) = cos(radians 0) = 1` there; the East y-component actually sits
at flat index 4, i.e. the code lays the East/North/Up basis out as rows. -/
theorem c2_column0_not_east :
    (get_transform_matrix 0 90 0).get? 1 = some (-1 : ℝ)
    ∧ Real.cos (radians 0) = 1
    ∧ ((-1 : ℝ) ≠ 1)
    ∧ (get_transform_matrix 0 90 0).get? 4 = some (Real.cos (radians 0)) := by
  have h90 : radians 90 = Real.pi / 2 := by rw [radians]; ring
  have h0 : radians 0 = 0 := by rw [radians]; ring
  have hcos : Real.cos (radians 0) = 1 := by rw [h0, Real.cos_zero]
  refine ⟨?_, hcos, by norm_num, ?_⟩
  · show some (-Real.sin (radians 90) * Real.cos (radians 0)) = some (-1 : ℝ)
    rw [h90, Real.sin_pi_div_two, hcos]
    norm_num
  · rfl
